import Mathlib

/-!
Shallow embedding of the notebook
`clustering-algos/Clustering algorithm comparison.ipynb`.

The notebook compares off-the-shelf clustering algorithms on a 2-D
dataset.  Library routines (sklearn, hdbscan, seaborn, numpy, time) are
modelled as explicit function parameters (oracles); the glue code the
notebook itself authors — the `algo_combos` list, the comparison loop
with its timing and colour assignment, the HDBSCAN sections — is
translated into Lean definitions below.
-/

namespace ClusteringNotebook

/-- RGB colours are triples of rationals (matplotlib colour tuples such
as `(0.0, 0.0, 0.0)`). -/
abbrev Color := ℚ × ℚ × ℚ

/-- Values passed as Python arguments in the notebook: integers, floats
(embedded as rationals), strings and booleans. -/
inductive PyVal where
  | int (n : Int)
  | float (q : ℚ)
  | str (s : String)
  | bool (b : Bool)
deriving DecidableEq, Repr

/-- The clustering classes the notebook refers to: the six
`sklearn.cluster` classes plus `hdbscan.HDBSCAN`. -/
inductive AlgoName where
  | KMeans
  | AffinityPropagation
  | MeanShift
  | SpectralClustering
  | AgglomerativeClustering
  | DBSCAN
  | HDBSCAN
deriving DecidableEq, Repr

/-- Python `algo.__name__` for each class. -/
def algoDunderName : AlgoName → String
  | .KMeans => "KMeans"
  | .AffinityPropagation => "AffinityPropagation"
  | .MeanShift => "MeanShift"
  | .SpectralClustering => "SpectralClustering"
  | .AgglomerativeClustering => "AgglomerativeClustering"
  | .DBSCAN => "DBSCAN"
  | .HDBSCAN => "HDBSCAN"

/-- One entry of `algo_combos`: `(algorithm, algo args, algo kwargs)`. -/
abbrev Combo := AlgoName × List PyVal × List (String × PyVal)

/-- The `algo_combos` list of the notebook, verbatim:
positional arguments and keyword arguments exactly as written in the
source cell. -/
def algo_combos : List Combo := [
  (.KMeans,                  [],            [("n_clusters", .int 6)]),
  (.AffinityPropagation,     [],            [("preference", .float (-5)), ("damping", .float (95/100))]),
  (.MeanShift,               [.float (175/1000)], [("cluster_all", .bool false)]),
  (.SpectralClustering,      [],            [("n_clusters", .int 6)]),
  (.AgglomerativeClustering, [],            [("n_clusters", .int 6), ("linkage", .str "ward")]),
  (.DBSCAN,                  [],            [("eps", .float (25/1000))]),
  (.HDBSCAN,                 [],            [("min_cluster_size", .int 15)])
]

/-- A dataset is a list of points; a point is its list of coordinates
(numpy arrays carry no dimension in their element type, so the number
of coordinates is a property to prove, not a type). -/
abbrev Data := List (List ℚ)

/-- The type of the `fit_predict` library oracle: an algorithm class,
its positional and keyword arguments, and the data, producing one
integer label per point.  The notebook never looks inside it. -/
abbrev FitPredict := AlgoName → List PyVal → List (String × PyVal) → Data → List Int

/-- Seaborn `sns.color_palette(name, n)` returns a list of exactly `n` colours;
which colours they are is irrelevant to the notebook logic, so the
colour generator `deep` is an oracle parameter. -/
def colorPalette (deep : ℕ → Color) (n : ℕ) : List Color :=
  (List.range n).map deep

/-- Numpy `np.unique(labels)`: the sorted list of distinct labels. -/
def npUnique (l : List Int) : List Int :=
  (l.dedup).insertionSort (· ≤ ·)

/-- Numpy `np.unique(labels).max()`: `none` models the `ValueError` numpy
raises on an empty array. -/
def npArrMax (l : List Int) : Option Int :=
  (npUnique l).max?

theorem npUnique_mem (l : List Int) (x : Int) : x ∈ npUnique l ↔ x ∈ l := by
  unfold npUnique
  rw [(List.perm_insertionSort (· ≤ ·) l.dedup).mem_iff, List.mem_dedup]

theorem le_npArrMax (l : List Int) (x : Int) (hx : x ∈ l) (m : Int)
    (hm : npArrMax l = some m) : x ≤ m := by
  have hx' : x ∈ npUnique l := (npUnique_mem l x).mpr hx
  haveI : Std.Antisymm ((· : ℤ) ≤ ·) := ⟨fun h1 h2 => le_antisymm h1 h2⟩
  have h := (List.max?_eq_some_iff (fun a => le_refl a) (fun a b => max_choice a b)
      (fun a b c => max_le_iff)).mp hm
  exact h.2 x hx'

theorem npArrMax_isSome (l : List Int) (h : l ≠ []) : (npArrMax l).isSome := by
  unfold npArrMax
  cases hq : (npUnique l).max? with
  | some m => rfl
  | none =>
      exfalso
      have : npUnique l = [] := List.max?_eq_none_iff.mp hq
      rcases List.exists_mem_of_ne_nil l h with ⟨x, hx⟩
      have : x ∈ npUnique l := (npUnique_mem l x).mpr hx
      simp_all

/-- Floor of a rational as an integer, computed by floor-division of
the numerator by the denominator. -/
def ratFloor (q : ℚ) : Int := Int.fdiv q.num q.den

theorem ratFloor_eq_floor (q : ℚ) : ratFloor q = ⌊q⌋ := by
  rw [ratFloor, Rat.floor_def, Int.fdiv_eq_ediv _ (Int.ofNat_nonneg q.den)]

/-- Round a rational to the nearest integer, ties to even — the
rounding Python applies when formatting a float with a fixed number of
decimals. -/
def roundHalfEven (q : ℚ) : Int :=
  let f := ratFloor q
  if q - f < 1/2 then f
  else if 1/2 < q - f then f + 1
  else if f % 2 = 0 then f else f + 1

/-- Python float formatting with the format spec `.2f`: the value
rounded to two decimal places, always printing two digits after the
point. -/
def format2f (q : ℚ) : String :=
  let n := roundHalfEven (q * 100)
  let sign := if n < 0 then "-" else ""
  let a := n.natAbs
  sign ++ toString (a / 100) ++ "." ++ (if a % 100 < 10 then "0" else "") ++ toString (a % 100)

/-- The colour list of one comparison-loop iteration:
`palette = sns.color_palette('deep', np.unique(labels).max() + 1)` and
`colors = [palette[x] if x >= 0 else (0.0, 0.0, 0.0) for x in labels]`.
The outer `Option` is the `ValueError` numpy raises for `.max()` of an
empty array; an inner `none` is an `IndexError` of `palette[x]`. -/
def comparisonColors (deep : ℕ → Color) (labels : List Int) : Option (List (Option Color)) :=
  (npArrMax labels).map (fun m =>
    let palette := colorPalette deep (m + 1).toNat
    labels.map (fun x => if 0 ≤ x then palette.get? x.toNat else some (0, 0, 0)))

/-- Everything one iteration of the comparison loop produces. -/
structure IterResult where
  idx : ℕ
  algo : AlgoName
  startTime : ℚ
  labels : List Int
  endTime : ℚ
  colors : Option (List (Option Color))
  text : String

/-- One iteration of the comparison loop (the cell after `algo_combos`):
read `time.time()`, call `fit_predict` on the data, read `time.time()`
again, build the colour list, and render the `ax.text` caption via
Python `'{}: {:.2f} s'.format(str(algo.__name__), end_time - start_time)`.
The iteration with 1-based index `i` consumes the clock readings
numbered `2*(i-1)` and `2*(i-1)+1`, so the two timestamps are the
consecutive clock reads immediately before and after the fit. -/
def comparisonIter (deep : ℕ → Color) (fitPredict : FitPredict) (clock : ℕ → ℚ)
    (data : Data) (i : ℕ) (combo : Combo) : IterResult :=
  let start_time := clock (2 * (i - 1))
  let labels := fitPredict combo.1 combo.2.1 combo.2.2 data
  let end_time := clock (2 * (i - 1) + 1)
  { idx := i
    algo := combo.1
    startTime := start_time
    labels := labels
    endTime := end_time
    colors := comparisonColors deep labels
    text := algoDunderName combo.1 ++ ": " ++ format2f (end_time - start_time) ++ " s" }

/-- The comparison loop:
`for i, (algo, args, algo_kwargs) in enumerate(algo_combos, start=1)`. -/
def comparisonLoop (deep : ℕ → Color) (fitPredict : FitPredict) (clock : ℕ → ℚ)
    (data : Data) : List IterResult :=
  (algo_combos.enumFrom 1).map (fun p => comparisonIter deep fitPredict clock data p.1 p.2)

/-- Python list indexing `l[i]`: non-negative indices count from the
front, negative indices from the back; `none` models an `IndexError`. -/
def pyGet (l : List α) (i : Int) : Option α :=
  if 0 ≤ i then l.get? i.toNat
  else if i.natAbs ≤ l.length then l.get? (l.length - i.natAbs)
  else none

/-- A trained hdbscan model as the notebook consumes it: the fields
`labels_` and `probabilities_` read off after `fit`. -/
structure HDBSCANModel where
  labels_ : List Int
  probabilities_ : List ℚ

/-- The HDBSCAN demo cells: construct
`hdbs = hdbscan.HDBSCAN(min_cluster_size=20)`, take
`labels = hdbs.fit_predict(data)`, then build
`color_palette = sns.color_palette('deep', len(np.unique(labels)))` and
`cluster_colors = [color_palette[x] if x >= 0 else (0.5, 0.5, 0.5) for x in labels]`.
The result is the label list and the colour list handed to
`plt.scatter`. -/
def hdbscanSection (deep : ℕ → Color)
    (fitPredictH : List (String × PyVal) → Data → List Int) (data : Data) :
    List Int × List (Option Color) :=
  let labels := fitPredictH [("min_cluster_size", .int 20)] data
  let color_palette := colorPalette deep (npUnique labels).length
  let cluster_colors := labels.map (fun x =>
    if 0 ≤ x then color_palette.get? x.toNat else some (1/2, 1/2, 1/2))
  (labels, cluster_colors)

/-- The cell `test_points = np.random.random(size=(50, 2)) - 0.5`:
fifty points of two coordinates, each one a uniform draw from `[0, 1)`
(the `rand` stream, read in row-major order) shifted down by one
half. -/
def testPoints (rand : ℕ → ℚ) : Data :=
  (List.range 50).map (fun i => [rand (2 * i) - 1/2, rand (2 * i + 1) - 1/2])

/-- The `fit` oracle of the prediction section: keyword arguments and
data in, trained model out. -/
abbrev HdbscanFit := List (String × PyVal) → Data → HDBSCANModel

/-- The `hdbscan.approximate_predict` oracle: model and new points in,
`(labels, strengths)` out. -/
abbrev ApproxPredict := HDBSCANModel → Data → List Int × List ℚ

/-- Everything the prediction section binds. -/
structure PredictionSection where
  hdbs : HDBSCANModel
  cluster_colors : List (Option Color)
  test_labels : List Int
  strengths : List ℚ
  test_colors : List (Option Color)

/-- The prediction cells: train
`hdbs = hdbscan.HDBSCAN(min_cluster_size=20, prediction_data=True).fit(data)`,
build `color_palette = sns.color_palette('deep', 12)` and
`cluster_colors = [sns.desaturate(color_palette[col], sat) for col, sat in zip(hdbs.labels_, hdbs.probabilities_)]`
(no sign guard here, so Python resolves negative noise labels by
indexing from the back), call
`test_labels, strengths = hdbscan.approximate_predict(hdbs, test_points)`,
and colour the test points with
`test_colors = [color_palette[col] if col >= 0 else (0.1, 0.1, 0.1) for col in test_labels]`. -/
def predictionSection (deep : ℕ → Color) (desat : Color → ℚ → Color)
    (fit : HdbscanFit) (approx : ApproxPredict)
    (data : Data) (test_points : Data) : PredictionSection :=
  let hdbs := fit [("min_cluster_size", .int 20), ("prediction_data", .bool true)] data
  let color_palette := colorPalette deep 12
  let cluster_colors := (hdbs.labels_.zip hdbs.probabilities_).map (fun p =>
    (pyGet color_palette p.1).map (fun c => desat c p.2))
  let tl := approx hdbs test_points
  let test_colors := tl.1.map (fun col =>
    if 0 ≤ col then pyGet color_palette col else some (1/10, 1/10, 1/10))
  { hdbs := hdbs
    cluster_colors := cluster_colors
    test_labels := tl.1
    strengths := tl.2
    test_colors := test_colors }

/-- Numpy transpose `data.T` of a list-of-points array: row `j` of the
transpose collects coordinate `j` of every point; the number of rows is
the length of the first point (the column count of the array). -/
def npT (d : Data) : Data :=
  (List.range d.headI.length).map (fun j => d.map (fun p => p.getD j 0))

/-- The externally observable operations the notebook cells perform, in
execution order.  `wgetDownload` is the shell cell
`! wget <url> -O clusterable_data.npy`. -/
inductive NbEffect where
  | runScript (path : String)
  | wgetDownload (url : String) (outPath : String)
  | npLoad (path : String)
  | plotFigure
  | fitModel (algo : AlgoName)
  | condensedTreeToPandas
  | approxPredictCall
deriving DecidableEq, Repr

/-- URL of the dataset the `wget` cell fetches. -/
def clusterableDataUrl : String :=
  "https://github.com/scikit-learn-contrib/hdbscan/blob/master/notebooks/clusterable_data.npy?raw=true"

/-- The `min_sample_vals` list of the `min_samples` sweep cell. -/
def min_sample_vals : List ℕ := [1, 10, 20, 50]

/-- The effect trace of the notebook run top to bottom: the sklearn
demo script (which renders plots; it is referenced but not part of
this repository), the dataset download, the load, and then the fits
and figures of each section in order. -/
def notebookEffects : List NbEffect :=
  [.runScript "sklearn-cluster-demo.py",
   .wgetDownload clusterableDataUrl "clusterable_data.npy",
   .npLoad "clusterable_data.npy",
   .plotFigure] ++
  (algo_combos.map (fun c => .fitModel c.1)) ++
  [.plotFigure,
   .fitModel .HDBSCAN, .plotFigure,
   .plotFigure,
   .condensedTreeToPandas] ++
  (min_sample_vals.map (fun _ => NbEffect.fitModel .HDBSCAN)) ++
  [.plotFigure,
   .fitModel .HDBSCAN, .plotFigure,
   .approxPredictCall, .plotFigure]

/-- Whether an operation writes data to durable storage: only the
`wget -O` download does (it creates or overwrites
`clusterable_data.npy` on disk); loading, fitting and plotting do
not. -/
def writesDurable : NbEffect → Bool
  | .wgetDownload _ _ => true
  | _ => false

/-- All interleavings of two sequential traces. -/
def interleave2 : List α → List α → List (List α)
  | [], ys => [ys]
  | x :: xs, [] => [x :: xs]
  | x :: xs, y :: ys =>
      (interleave2 xs (y :: ys)).map (x :: ·) ++ (interleave2 (x :: xs) ys).map (y :: ·)
termination_by xs ys => xs.length + ys.length

/-- All schedules of a list of threads: every interleaving of their
traces. -/
def schedules (threads : List (List α)) : List (List α) :=
  threads.foldl (fun acc t => acc.flatMap (fun s => interleave2 s t)) [[]]

/-- The notebook's threads of control: one single sequential thread
running the cells. -/
def notebookThreads : List (List NbEffect) := [notebookEffects]

/-- The fallible view of the fit step: `fit_predict` either returns
labels or raises a Python exception, modelled as a message. -/
abbrev FitPredictE := AlgoName → List PyVal → List (String × PyVal) → Data → Except String (List Int)

/-- The comparison loop with the library fit allowed to raise: the
notebook installs no `try`/`except`, so the iterations run in source
order and the first exception aborts the loop and propagates
unchanged. -/
def comparisonLoopE (deep : ℕ → Color) (fitE : FitPredictE) (clock : ℕ → ℚ)
    (data : Data) : List (ℕ × Combo) → Except String (List IterResult)
  | [] => .ok []
  | (i, combo) :: rest => do
      let start_time := clock (2 * (i - 1))
      let labels ← fitE combo.1 combo.2.1 combo.2.2 data
      let end_time := clock (2 * (i - 1) + 1)
      let r : IterResult :=
        { idx := i
          algo := combo.1
          startTime := start_time
          labels := labels
          endTime := end_time
          colors := comparisonColors deep labels
          text := algoDunderName combo.1 ++ ": " ++ format2f (end_time - start_time) ++ " s" }
      let rs ← comparisonLoopE deep fitE clock data rest
      pure (r :: rs)

/-- The whole fallible comparison loop over `algo_combos`. -/
def runComparisonE (deep : ℕ → Color) (fitE : FitPredictE) (clock : ℕ → ℚ)
    (data : Data) : Except String (List IterResult) :=
  comparisonLoopE deep fitE clock data (algo_combos.enumFrom 1)

theorem roundHalfEven_zero : roundHalfEven 0 = 0 := by
  rw [roundHalfEven, ratFloor_eq_floor]
  norm_num

theorem format2f_zero : format2f 0 = "0.00" := by
  have h0 : (0 : ℚ) * 100 = 0 := by norm_num
  rw [format2f, h0, roundHalfEven_zero]
  rfl

/-- The seven algorithms of the comparison, in notebook order. -/
def sevenAlgos : List AlgoName :=
  [.KMeans, .AffinityPropagation, .MeanShift, .SpectralClustering,
   .AgglomerativeClustering, .DBSCAN, .HDBSCAN]

/-- Claim C1: the comparison covers exactly the seven off-the-shelf
clustering algorithms KMeans, AffinityPropagation, MeanShift,
SpectralClustering, AgglomerativeClustering, DBSCAN and HDBSCAN — the
`algo_combos` list has one entry per algorithm, in that order, and the
fitting loop applies each of these algorithms exactly once to the
dataset, whatever the library oracle, the clock and the data are. -/
theorem C1_seven_algorithms (deep : ℕ → Color) (fitPredict : FitPredict)
    (clock : ℕ → ℚ) (data : Data) :
    algo_combos.map (fun c => c.1) = sevenAlgos ∧
    algo_combos.length = 7 ∧
    (comparisonLoop deep fitPredict clock data).map (fun r => r.algo) = sevenAlgos ∧
    (comparisonLoop deep fitPredict clock data).map (fun r => r.labels) =
      algo_combos.map (fun c => fitPredict c.1 c.2.1 c.2.2 data) ∧
    ∀ a : AlgoName,
      ((comparisonLoop deep fitPredict clock data).map (fun r => r.algo)).count a = 1 := by
  refine ⟨rfl, rfl, rfl, rfl, ?_⟩
  intro a
  cases a <;> rfl

/-- Claim C3 as stated — no operation of the notebook writes data to
or maintains data in durable storage — fails on the code: the shell
cell `! wget ... -O clusterable_data.npy` writes the downloaded
dataset to a file on disk. -/
theorem C3_no_persistence_cex :
    ¬ (∀ e ∈ notebookEffects, writesDurable e = false) := by
  decide

/-- Claim C3 (amended): the notebook manages no persistent store of
its own — the only operation that writes to durable storage is the
one-shot `wget` download of the dataset file `clusterable_data.npy`;
no other operation writes durable data. -/
theorem C3_only_download_writes :
    notebookEffects.filter (fun e => writesDurable e) =
      [.wgetDownload clusterableDataUrl "clusterable_data.npy"] := by
  decide

/-- Claim C7: the notebook involves no concurrency — its operations
run on a single thread of control, and the set of possible schedules
of its threads is exactly the one sequential trace of the cells, with
no other interleaving of the clustering, timing or plotting steps. -/
theorem C7_single_thread : schedules notebookThreads = [notebookEffects] := by
  simp [schedules, notebookThreads, interleave2]

/-- Claim C4: every cluster-label assignment in the notebook is the
unmodified result of a call into the library — in the comparison loop
the recorded label arrays are exactly the `fit_predict` outputs and
each iteration's colours are computed from that same unmodified array;
in the HDBSCAN demo the labels the colouring consumes are exactly
`hdbs.fit_predict(data)`; in the prediction section the trained model
is exactly the `fit` output, the test labels are exactly the first
component of `hdbscan.approximate_predict`, and both colour lists read
those labels unchanged — for every choice of library oracles. -/
theorem C4_labels_are_library_outputs (deep : ℕ → Color) (fitPredict : FitPredict)
    (clock : ℕ → ℚ) (data : Data)
    (fitPredictH : List (String × PyVal) → Data → List Int)
    (desat : Color → ℚ → Color) (fit : HdbscanFit) (approx : ApproxPredict)
    (test_points : Data) :
    ((comparisonLoop deep fitPredict clock data).map (fun r => r.labels) =
      algo_combos.map (fun c => fitPredict c.1 c.2.1 c.2.2 data)) ∧
    (∀ r ∈ comparisonLoop deep fitPredict clock data,
      r.colors = comparisonColors deep r.labels) ∧
    ((hdbscanSection deep fitPredictH data).1 =
      fitPredictH [("min_cluster_size", .int 20)] data) ∧
    ((hdbscanSection deep fitPredictH data).2 =
      (hdbscanSection deep fitPredictH data).1.map (fun x =>
        if 0 ≤ x then
          (colorPalette deep (npUnique (hdbscanSection deep fitPredictH data).1).length).get? x.toNat
        else some (1/2, 1/2, 1/2))) ∧
    ((predictionSection deep desat fit approx data test_points).hdbs =
      fit [("min_cluster_size", .int 20), ("prediction_data", .bool true)] data) ∧
    ((predictionSection deep desat fit approx data test_points).test_labels =
      (approx (fit [("min_cluster_size", .int 20), ("prediction_data", .bool true)] data)
        test_points).1) ∧
    ((predictionSection deep desat fit approx data test_points).test_colors =
      (predictionSection deep desat fit approx data test_points).test_labels.map (fun col =>
        if 0 ≤ col then pyGet (colorPalette deep 12) col else some (1/10, 1/10, 1/10))) ∧
    ((predictionSection deep desat fit approx data test_points).cluster_colors =
      ((predictionSection deep desat fit approx data test_points).hdbs.labels_.zip
        (predictionSection deep desat fit approx data test_points).hdbs.probabilities_).map
        (fun p => (pyGet (colorPalette deep 12) p.1).map (fun c => desat c p.2))) := by
  refine ⟨rfl, ?_, rfl, rfl, rfl, rfl, rfl, rfl⟩
  intro r hr
  rcases List.mem_map.mp hr with ⟨p, hp, rfl⟩
  rfl

/-- Constant colour oracle used for concrete instantiations. -/
def cDeep : ℕ → Color := fun _ => (0, 0, 0)

/-- Constant desaturation oracle used for concrete instantiations. -/
def cDesat : Color → ℚ → Color := fun c _ => c

/-- Constant clock oracle used for concrete instantiations. -/
def cClock : ℕ → ℚ := fun _ => 0

/-- Stub `fit_predict` oracle used for concrete instantiations. -/
def cFit : FitPredict := fun _ _ _ _ => [0]

/-- One-point dataset used for concrete instantiations. -/
def cData : Data := [[0, 0]]

theorem C4_labels_are_library_outputs_witness :
    (comparisonIter cDeep cFit cClock cData 1
        (.KMeans, [], [("n_clusters", PyVal.int 6)])) ∈
      comparisonLoop cDeep cFit cClock cData ∧
    (comparisonIter cDeep cFit cClock cData 1
        (.KMeans, [], [("n_clusters", PyVal.int 6)])).colors =
      comparisonColors cDeep
        (comparisonIter cDeep cFit cClock cData 1
          (.KMeans, [], [("n_clusters", PyVal.int 6)])).labels :=
  ⟨List.mem_cons_self _ _,
   (C4_labels_are_library_outputs cDeep cFit cClock cData (fun _ _ => [0]) cDesat
      (fun _ _ => ⟨[0], [1]⟩) (fun _ _ => ([0], [1])) cData).2.1 _
     (List.mem_cons_self _ _)⟩

/-- Modelled from the spec: the contents of `clusterable_data.npy` are
not part of this repository (the notebook downloads the file at run
time), and the spec describes every dataset as synthetic 2-D, so the
loaded data is modelled as an array whose points all have exactly two
coordinates. -/
def isTwoDimensional (d : Data) : Prop := ∀ p ∈ d, p.length = 2

theorem npT_of_two_dim (d : Data) (h2 : isTwoDimensional d) (hne : d ≠ []) :
    npT d = [d.map (fun p => p.getD 0 0), d.map (fun p => p.getD 1 0)] := by
  have hh : d.headI.length = 2 := by
    cases d with
    | nil => exact absurd rfl hne
    | cons p rest => exact h2 p (List.mem_cons_self _ _)
  rw [npT, hh]
  rfl

theorem testPoints_two_dim (rand : ℕ → ℚ) : isTwoDimensional (testPoints rand) := by
  intro p hp
  rcases List.mem_map.mp hp with ⟨i, _, rfl⟩
  rfl

/-- Claim C6: every dataset the notebook clusters or plots is
two-dimensional — each loaded point (2-D by the spec model above) and
each generated test point has exactly two coordinates — and the
transpose `data.T` consists of exactly the two rows `data.T[0]` and
`data.T[1]`, the list of first coordinates and the list of second
coordinates, which is what every scatter call consumes (the `*data.T`
splats pass exactly these two rows as the two positional arguments). -/
theorem C6_datasets_two_dimensional (data : Data) (h2 : isTwoDimensional data)
    (hne : data ≠ []) (rand : ℕ → ℚ) :
    npT data = [data.map (fun p => p.getD 0 0), data.map (fun p => p.getD 1 0)] ∧
    (npT data).length = 2 ∧
    (npT data).get? 0 = some (data.map (fun p => p.getD 0 0)) ∧
    (npT data).get? 1 = some (data.map (fun p => p.getD 1 0)) ∧
    isTwoDimensional (testPoints rand) ∧
    npT (testPoints rand) =
      [(testPoints rand).map (fun p => p.getD 0 0),
       (testPoints rand).map (fun p => p.getD 1 0)] := by
  have h := npT_of_two_dim data h2 hne
  refine ⟨h, by rw [h]; rfl, by rw [h]; rfl, by rw [h]; rfl, testPoints_two_dim rand, ?_⟩
  exact npT_of_two_dim _ (testPoints_two_dim rand) (by simp [testPoints])

theorem C6_datasets_two_dimensional_witness :
    (isTwoDimensional [[(1 : ℚ), 2], [3, 4]] ∧ ([[(1 : ℚ), 2], [3, 4]] : Data) ≠ []) ∧
    npT [[(1 : ℚ), 2], [3, 4]] =
      [([[(1 : ℚ), 2], [3, 4]] : Data).map (fun p => p.getD 0 0),
       ([[(1 : ℚ), 2], [3, 4]] : Data).map (fun p => p.getD 1 0)] :=
  ⟨⟨by simp [isTwoDimensional], by decide⟩,
   (C6_datasets_two_dimensional [[1, 2], [3, 4]] (by simp [isTwoDimensional]) (by decide)
     (fun _ => 0)).1⟩

theorem colorPalette_length (deep : ℕ → Color) (n : ℕ) :
    (colorPalette deep n).length = n := by
  simp [colorPalette]

/-- Claim C8: in the comparison loop the colour lookup never goes out
of bounds — for every nonempty label array `fit_predict` can return
(including one that is all noise, i.e. all `-1`) the palette is built
with `max(labels) + 1` entries, the lookup `palette[x]` is evaluated
only for labels `x >= 0`, every such `x` is at most `max(labels)` and
so indexes within the palette, every negative label maps to the fixed
colour `(0.0, 0.0, 0.0)`, and consequently the whole colour list is
defined. -/
theorem C8_comparison_palette_safe (deep : ℕ → Color) (labels : List Int)
    (h : labels ≠ []) :
    ∃ m, npArrMax labels = some m ∧
      (colorPalette deep (m + 1).toNat).length = (m + 1).toNat ∧
      comparisonColors deep labels =
        some (labels.map (fun x =>
          if 0 ≤ x then (colorPalette deep (m + 1).toNat).get? x.toNat
          else some (0, 0, 0))) ∧
      (∀ x ∈ labels, 0 ≤ x → x ≤ m) ∧
      (∀ x ∈ labels, x < 0 →
        (if 0 ≤ x then (colorPalette deep (m + 1).toNat).get? x.toNat
         else some ((0 : ℚ), (0 : ℚ), (0 : ℚ))) = some (0, 0, 0)) ∧
      ∀ cs, comparisonColors deep labels = some cs → ∀ c ∈ cs, c.isSome := by
  obtain ⟨m, hm⟩ := Option.isSome_iff_exists.mp (npArrMax_isSome labels h)
  refine ⟨m, hm, colorPalette_length _ _, ?_, ?_, ?_, ?_⟩
  · rw [comparisonColors, hm]
    rfl
  · intro x hx _
    exact le_npArrMax labels x hx m hm
  · intro x _ hx
    rw [if_neg (by omega)]
  · intro cs hcs c hc
    rw [comparisonColors, hm, Option.map_some'] at hcs
    have hcs' := Option.some.inj hcs
    subst hcs'
    rcases List.mem_map.mp hc with ⟨x, hx, rfl⟩
    by_cases h0 : 0 ≤ x
    · rw [if_pos h0]
      have hxm : x ≤ m := le_npArrMax labels x hx m hm
      have hlt : x.toNat < (colorPalette deep (m + 1).toNat).length := by
        rw [colorPalette_length]
        omega
      rw [List.get?_eq_get hlt]
      rfl
    · rw [if_neg h0]
      rfl

theorem C8_comparison_palette_safe_witness :
    (([(-1 : Int), -1] : List Int) ≠ []) ∧
    (∃ m, npArrMax [(-1 : Int), -1] = some m ∧
      (colorPalette cDeep (m + 1).toNat).length = (m + 1).toNat ∧
      comparisonColors cDeep [(-1 : Int), -1] =
        some (([(-1 : Int), -1]).map (fun x =>
          if 0 ≤ x then (colorPalette cDeep (m + 1).toNat).get? x.toNat
          else some (0, 0, 0))) ∧
      (∀ x ∈ ([(-1 : Int), -1] : List Int), 0 ≤ x → x ≤ m) ∧
      (∀ x ∈ ([(-1 : Int), -1] : List Int), x < 0 →
        (if 0 ≤ x then (colorPalette cDeep (m + 1).toNat).get? x.toNat
         else some ((0 : ℚ), (0 : ℚ), (0 : ℚ))) = some (0, 0, 0)) ∧
      ∀ cs, comparisonColors cDeep [(-1 : Int), -1] = some cs → ∀ c ∈ cs, c.isSome) :=
  ⟨by decide, C8_comparison_palette_safe cDeep [-1, -1] (by decide)⟩

/-- Stub hdbscan `fit` oracle used for concrete instantiations. -/
def cHFit : HdbscanFit := fun _ _ => ⟨[0], [1]⟩

/-- Stub `approximate_predict` oracle used for concrete instantiations:
it returns the labels 0 and 11, both within the twelve-colour
palette. -/
def cApprox : ApproxPredict := fun _ _ => ([0, 11], [1, 1])

/-- Claim C9: in the prediction section the colour palette is fixed at
twelve entries and is indexed, through Python list indexing, by the
cluster labels of the trained model and of `approximate_predict`; the
test-point colour lookup is defined everywhere under the precondition
that every non-negative returned label is below twelve, and any label
of at least twelve makes the palette lookup go out of bounds. -/
theorem C9_prediction_palette_twelve (deep : ℕ → Color) (desat : Color → ℚ → Color)
    (fit : HdbscanFit) (approx : ApproxPredict) (data test_points : Data) :
    (colorPalette deep 12).length = 12 ∧
    ((predictionSection deep desat fit approx data test_points).test_colors =
      (predictionSection deep desat fit approx data test_points).test_labels.map (fun col =>
        if 0 ≤ col then pyGet (colorPalette deep 12) col else some (1/10, 1/10, 1/10))) ∧
    ((predictionSection deep desat fit approx data test_points).cluster_colors =
      ((predictionSection deep desat fit approx data test_points).hdbs.labels_.zip
        (predictionSection deep desat fit approx data test_points).hdbs.probabilities_).map
        (fun p => (pyGet (colorPalette deep 12) p.1).map (fun c => desat c p.2))) ∧
    ((∀ x ∈ (predictionSection deep desat fit approx data test_points).test_labels,
        0 ≤ x → x < 12) →
      ∀ c ∈ (predictionSection deep desat fit approx data test_points).test_colors,
        c.isSome) ∧
    (∀ col : Int, 12 ≤ col → pyGet (colorPalette deep 12) col = none) := by
  refine ⟨colorPalette_length _ _, rfl, rfl, ?_, ?_⟩
  · intro hlt c hc
    rcases List.mem_map.mp hc with ⟨col, hcol, rfl⟩
    by_cases h0 : 0 ≤ col
    · rw [if_pos h0, pyGet, if_pos h0]
      have h12 : col < 12 := hlt col hcol h0
      have hn : col.toNat < (colorPalette deep 12).length := by
        rw [colorPalette_length]
        omega
      rw [List.get?_eq_get hn]
      rfl
    · rw [if_neg h0]
      rfl
  · intro col h12
    rw [pyGet, if_pos (by omega : (0 : Int) ≤ col)]
    apply List.get?_eq_none.mpr
    rw [colorPalette_length]
    omega

theorem C9_prediction_palette_twelve_witness :
    ((∀ x ∈ (predictionSection cDeep cDesat cHFit cApprox cData cData).test_labels,
        0 ≤ x → x < 12) ∧
      (∀ c ∈ (predictionSection cDeep cDesat cHFit cApprox cData cData).test_colors,
        c.isSome)) ∧
    ((12 : Int) ≤ 12 ∧ pyGet (colorPalette cDeep 12) 12 = none) :=
  ⟨⟨by decide,
    (C9_prediction_palette_twelve cDeep cDesat cHFit cApprox cData cData).2.2.2.1
      (by decide)⟩,
   by decide,
   (C9_prediction_palette_twelve cDeep cDesat cHFit cApprox cData cData).2.2.2.2 12
     (by decide)⟩

/-- Claim C10: the test-point generator produces exactly 50 points,
each with 2 coordinates, and — every random draw being uniform in
`[0, 1)` — every coordinate lies in the half-open interval
`[-0.5, 0.5)`. -/
theorem C10_test_point_generator (rand : ℕ → ℚ)
    (h : ∀ k, 0 ≤ rand k ∧ rand k < 1) :
    (testPoints rand).length = 50 ∧
    (∀ p ∈ testPoints rand, p.length = 2) ∧
    (∀ p ∈ testPoints rand, ∀ c ∈ p, -(1/2) ≤ c ∧ c < 1/2) := by
  refine ⟨by simp [testPoints], testPoints_two_dim rand, ?_⟩
  intro p hp c hc
  rcases List.mem_map.mp hp with ⟨i, _, rfl⟩
  have h1 := h (2 * i)
  have h2 := h (2 * i + 1)
  rcases List.mem_pair.mp hc with rfl | rfl
  · constructor <;> linarith [h1.1, h1.2]
  · constructor <;> linarith [h2.1, h2.2]

theorem C10_test_point_generator_witness :
    (∀ k : ℕ, 0 ≤ (fun _ => (0 : ℚ)) k ∧ (fun _ => (0 : ℚ)) k < 1) ∧
    (testPoints (fun _ => 0)).length = 50 ∧
    (∀ p ∈ testPoints (fun _ => 0), p.length = 2) ∧
    (∀ p ∈ testPoints (fun _ => 0), ∀ c ∈ p, -(1/2) ≤ c ∧ c < 1/2) :=
  ⟨fun _ => by norm_num,
   (C10_test_point_generator (fun _ => 0) (fun _ => by norm_num)).1,
   (C10_test_point_generator (fun _ => 0) (fun _ => by norm_num)).2.1,
   (C10_test_point_generator (fun _ => 0) (fun _ => by norm_num)).2.2⟩

/-- Claim C2 (amended): for every algorithm in the comparison loop the
program times the library fit — each iteration records the clock
readings immediately before and immediately after its `fit_predict`
call — and the text it renders onto the algorithm's subplot is the
algorithm class name followed by the separator `": "`, then the
difference of the two timestamps formatted to two decimal places, then
the suffix `" s"`. -/
theorem C2_timing_and_text (deep : ℕ → Color) (fitPredict : FitPredict)
    (clock : ℕ → ℚ) (data : Data) (r : IterResult)
    (hr : r ∈ comparisonLoop deep fitPredict clock data) :
    r.startTime = clock (2 * (r.idx - 1)) ∧
    r.endTime = clock (2 * (r.idx - 1) + 1) ∧
    r.text = algoDunderName r.algo ++ ": " ++
      format2f (r.endTime - r.startTime) ++ " s" := by
  rcases List.mem_map.mp hr with ⟨p, hp, rfl⟩
  exact ⟨rfl, rfl, rfl⟩

theorem C2_timing_and_text_witness :
    (comparisonIter cDeep cFit cClock cData 1
        (.KMeans, [], [("n_clusters", PyVal.int 6)])) ∈
      comparisonLoop cDeep cFit cClock cData ∧
    (comparisonIter cDeep cFit cClock cData 1
        (.KMeans, [], [("n_clusters", PyVal.int 6)])).text =
      algoDunderName (comparisonIter cDeep cFit cClock cData 1
        (.KMeans, [], [("n_clusters", PyVal.int 6)])).algo ++ ": " ++
      format2f ((comparisonIter cDeep cFit cClock cData 1
          (.KMeans, [], [("n_clusters", PyVal.int 6)])).endTime -
        (comparisonIter cDeep cFit cClock cData 1
          (.KMeans, [], [("n_clusters", PyVal.int 6)])).startTime) ++ " s" :=
  ⟨List.mem_cons_self _ _,
   (C2_timing_and_text cDeep cFit cClock cData _ (List.mem_cons_self _ _)).2.2⟩

/-- Claim C2 as literally stated is false at a concrete input: with a
constant clock the first subplot text is `"KMeans: 0.00 s"`, which is
not the class name directly followed by the formatted time difference
and the suffix `" s"` (that would be `"KMeans0.00 s"`): the source
format string puts the separator `": "` between the class name and the
time. -/
theorem C2_text_cex :
    ¬ (∀ r ∈ comparisonLoop cDeep cFit cClock cData,
        r.text = algoDunderName r.algo ++ format2f (r.endTime - r.startTime) ++ " s") := by
  intro hcl
  have ht := hcl _ (List.mem_cons_self
    (comparisonIter cDeep cFit cClock cData 1
      (.KMeans, [], [("n_clusters", PyVal.int 6)])) _)
  have ht' : "KMeans" ++ ": " ++ format2f (cClock 1 - cClock 0) ++ " s" =
      "KMeans" ++ format2f (cClock 1 - cClock 0) ++ " s" := ht
  have hd : cClock 1 - cClock 0 = 0 := by norm_num [cClock]
  rw [hd, format2f_zero] at ht'
  exact absurd ht' (by decide)

theorem comparisonLoopE_first_error (deep : ℕ → Color) (fitE : FitPredictE)
    (clock : ℕ → ℚ) (data : Data) (e : String) :
    ∀ (pre : List Combo) (c : Combo) (post : List Combo) (n : ℕ),
      (∀ p ∈ pre, ∃ ls, fitE p.1 p.2.1 p.2.2 data = .ok ls) →
      fitE c.1 c.2.1 c.2.2 data = .error e →
      comparisonLoopE deep fitE clock data ((pre ++ c :: post).enumFrom n) = .error e := by
  intro pre
  induction pre with
  | nil =>
      intro c post n _ herr
      simp [comparisonLoopE, herr]
      rfl
  | cons p ps ih =>
      intro c post n hpre herr
      obtain ⟨ls, hls⟩ := hpre p (List.mem_cons_self _ _)
      have hrec := ih c post (n + 1) (fun q hq => hpre q (List.mem_cons_of_mem p hq)) herr
      simp [comparisonLoopE, hls, hrec]
      rfl

/-- Claim C5: the notebook performs no failure handling beyond the
default library exceptions — the comparison loop installs no handler,
so whenever a `fit_predict` call raises (the failing algorithm being
the first one to do so, the calls before it succeeding), the exception
propagates unchanged to the top level of the run and no fallback or
recovery path produces a result. -/
theorem C5_exceptions_propagate (deep : ℕ → Color) (fitE : FitPredictE)
    (clock : ℕ → ℚ) (data : Data) (pre : List Combo) (c : Combo) (post : List Combo)
    (e : String) (hsplit : algo_combos = pre ++ c :: post)
    (hok : ∀ p ∈ pre, ∃ ls, fitE p.1 p.2.1 p.2.2 data = .ok ls)
    (herr : fitE c.1 c.2.1 c.2.2 data = .error e) :
    runComparisonE deep fitE clock data = .error e := by
  rw [runComparisonE, hsplit]
  exact comparisonLoopE_first_error deep fitE clock data e pre c post 1 hok herr

/-- Stub failing `fit_predict` oracle: every fit raises. -/
def cFitErr : FitPredictE := fun _ _ _ _ => .error "ValueError"

theorem C5_exceptions_propagate_witness :
    (algo_combos = [] ++ (AlgoName.KMeans, ([] : List PyVal),
        [("n_clusters", PyVal.int 6)]) :: algo_combos.tail) ∧
    cFitErr AlgoName.KMeans [] [("n_clusters", PyVal.int 6)] cData = .error "ValueError" ∧
    runComparisonE cDeep cFitErr cClock cData = .error "ValueError" :=
  ⟨rfl, rfl,
   C5_exceptions_propagate cDeep cFitErr cClock cData []
     (AlgoName.KMeans, [], [("n_clusters", PyVal.int 6)]) algo_combos.tail "ValueError"
     rfl (fun p hp => absurd hp (List.not_mem_nil p)) rfl⟩

end ClusteringNotebook
